import Mathlib

/-
Verification development for the JARVIS chatbot repository.

Shallow embedding of the streaming chat core:
  * src/utils/helpers.js      (validateMessage, trim behaviour of inputs)
  * src/services/chatService.js (createMessage / createUserMessage / createBotMessage /
                                 createErrorMessage)
  * src/hooks/useChat.js      (updateStreamingContent RAF buffer, sendMessage,
                               onComplete / onError handlers, cancelStreaming)
  * src/hooks/useStickyScroll.js (scroll-intent tracking and auto-scroll gating)
  * src/services/geminiService.js (cancelStream, generateStreamingResponse with
                               model fallback, _handleError categorisation)

JavaScript strings are modelled as lists of characters (`Str`); machine-level
nondeterminism (Date.now(), generateId()) is supplied through an explicit
environment record `IdEnv`.  Asynchronous callbacks (requestAnimationFrame,
SDK stream chunks, user cancellation) are modelled as explicit event sequences
consumed by step functions, one step per event.
-/

namespace Jarvis

/-- JavaScript strings, modelled as character lists. -/
abbrev Str := List Char

/-- The whitespace characters recognised by String.prototype.trim that occur in
this development (ASCII WhiteSpace and LineTerminator; Unicode space
separators such as NBSP are not produced by any input modelled here). -/
def isJsWhitespace (c : Char) : Bool :=
  c == ' ' || c == '\t' || c == '\n' || c == '\r' || c == '\x0b' || c == '\x0c'

/-- JavaScript `s.trim()`: remove leading and trailing whitespace. -/
def trim (s : Str) : Str :=
  ((s.dropWhile isJsWhitespace).reverse.dropWhile isJsWhitespace).reverse

/-- JavaScript `s.toLowerCase()` restricted to the ASCII fragment exercised by
the error-classification strings of geminiService.js. -/
def toLowerStr (s : Str) : Str := s.map Char.toLower

/-- needle `isPrefixB` hay : Boolean test that `needle` is a prefix of `hay`. -/
def isPrefixB : Str → Str → Bool
  | [], _ => true
  | _ :: _, [] => false
  | c :: cs, d :: ds => c == d && isPrefixB cs ds

/-- JavaScript `hay.includes(needle)` : substring containment. -/
def includesStr : Str → Str → Bool
  | [], needle => needle.isEmpty
  | c :: rest, needle => isPrefixB needle (c :: rest) || includesStr rest needle

/-! ### Constants (src/constants/index.js) -/

/-- SENDER from src/constants. -/
inductive Sender
  | user
  | bot
  | system
  deriving Repr, DecidableEq

/-- MESSAGE_STATUS from src/constants. -/
inductive MessageStatus
  | pending
  | sent
  | delivered
  | error
  deriving Repr, DecidableEq

/-- CHAT_STATE from src/constants: idle, loading, streaming, error, success. -/
inductive ChatState
  | idle
  | loading
  | streaming
  | error
  | success
  deriving Repr, DecidableEq

/-- ERROR_TYPES from src/constants. -/
inductive ErrorType
  | API_KEY_MISSING
  | API_KEY_INVALID
  | QUOTA_EXCEEDED
  | NETWORK_ERROR
  | RATE_LIMITED
  | UNKNOWN
  deriving Repr, DecidableEq

/-- INPUT_VALIDATION.MAX_LENGTH, also the default maxLength of validateMessage. -/
def MAX_MESSAGE_LENGTH : Nat := 10000

/-- API_CONFIG.MODEL from src/constants. -/
def API_CONFIG_MODEL : String := "gemini-2.0-flash"

/-! ### Error objects (JavaScript `Error` values with the extra `type` field
attached by GeminiProvider._createError) -/

/-- A JavaScript error value as observed by the chat code: its `name`
(`"AbortError"` is special-cased), the optional categorised `type` attached by
`_createError`, and its `message`. -/
structure ErrObj where
  name : String
  type : Option ErrorType
  message : Str
  deriving Repr, DecidableEq

/-- GeminiProvider._createError: build an Error carrying a categorised type. -/
def createError (t : ErrorType) (msg : Str) : ErrObj :=
  { name := "Error", type := some t, message := msg }

/-! ### Messages (src/services/chatService.js) -/

/-- The metadata object attached by createMessage / createErrorMessage. -/
structure Metadata where
  errorType : Option ErrorType
  errorMessage : Option Str
  deriving Repr, DecidableEq

/-- Environment supplying the nondeterministic inputs of chatService:
generateId() and Date.now(). -/
structure IdEnv where
  freshId : String
  now : Nat
  deriving Repr, DecidableEq

/-- A chat Message as built by createMessage in chatService.js. -/
structure Message where
  id : String
  text : Str
  sender : Sender
  timestamp : Nat
  status : MessageStatus
  metadata : Metadata
  deriving Repr, DecidableEq

/-- The options object of createMessage (all fields optional in the source). -/
structure MessageOptions where
  id : Option String
  timestamp : Option Nat
  status : Option MessageStatus
  metadata : Option Metadata
  deriving Repr, DecidableEq

/-- The empty options object. -/
def noOptions : MessageOptions := ⟨none, none, none, none⟩

/-- createMessage from chatService.js: defaults id to generateId(), timestamp
to Date.now(), status to SENT and metadata to the empty object. -/
def createMessage (env : IdEnv) (text : Str) (sender : Sender)
    (options : MessageOptions) : Message :=
  { id := options.id.getD env.freshId
    text := text
    sender := sender
    timestamp := options.timestamp.getD env.now
    status := options.status.getD MessageStatus.sent
    metadata := options.metadata.getD ⟨none, none⟩ }

/-- createUserMessage from chatService.js. -/
def createUserMessage (env : IdEnv) (text : Str) : Message :=
  createMessage env text Sender.user noOptions

/-- createBotMessage from chatService.js. -/
def createBotMessage (env : IdEnv) (text : Str) : Message :=
  createMessage env text Sender.bot noOptions

/-- The fixed apology text used by createErrorMessage. -/
def apologyText : Str :=
  "I apologize, but I encountered an issue processing your request. Please try again.".toList

/-- createErrorMessage from chatService.js: always the generic apology text,
sender BOT, status ERROR, with the error type and message kept in metadata. -/
def createErrorMessage (env : IdEnv) (error : ErrObj) : Message :=
  createMessage env apologyText Sender.bot
    { id := none
      timestamp := none
      status := some MessageStatus.error
      metadata := some
        { errorType := some (error.type.getD ErrorType.UNKNOWN)
          errorMessage := some error.message } }

/-! ### validateMessage (src/utils/helpers.js) -/

/-- Result object of validateMessage: either invalid with an error string, or
valid carrying the trimmed value. -/
inductive ValidationResult
  | invalid (error : Str)
  | valid (value : Str)
  deriving Repr, DecidableEq

/-- validateMessage from src/utils/helpers.js with the default
maxLength = 10000: reject empty input, whitespace-only input (trimmed length
zero) and input whose trimmed length exceeds maxLength; otherwise return the
trimmed value. -/
def validateMessage (message : Str) : ValidationResult :=
  if message.isEmpty then
    ValidationResult.invalid "Message cannot be empty".toList
  else if (trim message).length = 0 then
    ValidationResult.invalid "Message cannot be empty".toList
  else if MAX_MESSAGE_LENGTH < (trim message).length then
    ValidationResult.invalid "Message exceeds 10000 characters".toList
  else
    ValidationResult.valid (trim message)

/-! ### useChat hook state (src/hooks/useChat.js)

React state plus the mutable refs that the streaming pipeline uses:
`pendingChunkRef` (the buffer slot) and `rafIdRef` (whether an
animation-frame flush callback is currently scheduled). -/

/-- The state owned by the useChat hook. -/
structure ChatHookState where
  messages : List Message
  chatState : ChatState
  error : Option Str
  inputValue : Str
  streamingContent : Str
  streamingMessageId : Option String
  pendingChunk : Str
  rafPending : Bool
  deriving Repr, DecidableEq

/-- The hook's initial state: no messages, idle, no error, empty buffer. -/
def emptyChat : ChatHookState :=
  { messages := []
    chatState := ChatState.idle
    error := none
    inputValue := []
    streamingContent := []
    streamingMessageId := none
    pendingChunk := []
    rafPending := false }

/-- updateStreamingContent (useChat.js lines 105-114): store the latest
cumulative text in pendingChunkRef; if no animation-frame callback is
scheduled, schedule one. -/
def updateStreamingContent (content : Str) (s : ChatHookState) : ChatHookState :=
  let s1 := { s with pendingChunk := content }
  if s1.rafPending then s1 else { s1 with rafPending := true }

/-- The scheduled requestAnimationFrame callback firing (useChat.js lines
109-112): publish the slot's current value to the observable streaming state
and clear the callback id.  When no callback is scheduled nothing runs. -/
def rafFire (s : ChatHookState) : ChatHookState :=
  if s.rafPending then
    { s with streamingContent := s.pendingChunk, rafPending := false }
  else s

/-! ### The update-buffer event machine

An interleaving of calls to updateStreamingContent (one per provider chunk)
and browser animation frames.  A frame runs the scheduled callback, if any;
the value it publishes (the argument of setStreamingContent) is recorded as
the step's output. -/

/-- An event consumed by the streaming update buffer. -/
inductive BufferEvent
  | update (content : Str)
  | frame
  deriving Repr, DecidableEq

/-- One buffer step; the optional output is the value published by a flush. -/
def bufStep (s : ChatHookState) : BufferEvent → ChatHookState × Option Str
  | BufferEvent.update c => (updateStreamingContent c s, none)
  | BufferEvent.frame =>
      if s.rafPending then (rafFire s, some s.pendingChunk) else (s, none)

/-- Run the buffer over an event sequence, collecting the published values. -/
def bufRun (s : ChatHookState) : List BufferEvent → ChatHookState × List Str
  | [] => (s, [])
  | e :: rest =>
      match bufStep s e with
      | (s', out) =>
          match bufRun s' rest with
          | (s'', outs) => (s'', out.toList ++ outs)

/-- The cumulative-text values fed to the buffer by an event sequence. -/
def bufInputs : List BufferEvent → List Str :=
  List.filterMap (fun e =>
    match e with
    | BufferEvent.update c => some c
    | BufferEvent.frame => none)

/-- Run the buffer over a time-stamped event sequence, collecting each
published value with the time of the frame that published it.  The code reads
no clock in this path, so event times are pure observations: any schedule the
browser produces is admissible. -/
def timedRun (s : ChatHookState) : List (Nat × BufferEvent) → List (Nat × Str)
  | [] => []
  | (t, e) :: rest =>
      match bufStep s e with
      | (s', none) => timedRun s' rest
      | (s', some v) => (t, v) :: timedRun s' rest

/-! ### sendMessage and the streaming callbacks (useChat.js lines 139-203) -/

/-- The placeholder id `streaming-(Date.now())` minted by sendMessage. -/
def streamingIdOf (env : IdEnv) : String :=
  "streaming-" ++ toString env.now

/-- sendMessage up to the provider call (useChat.js lines 139-160): validate;
on failure set the validation error and stop.  On success append the user
message built from the trimmed value, clear the input, initialise the
streaming placeholder and buffer, set state STREAMING and clear the error.
The second component is the prompt passed to
provider.generateStreamingResponse (none when no call is made). -/
def sendMessage (env : IdEnv) (text : Str) (s : ChatHookState) :
    ChatHookState × Option Str :=
  match validateMessage text with
  | ValidationResult.invalid e => ({ s with error := some e }, none)
  | ValidationResult.valid v =>
      ({ s with
          inputValue := []
          messages := s.messages ++ [createUserMessage env v]
          streamingMessageId := some (streamingIdOf env)
          streamingContent := []
          chatState := ChatState.streaming
          error := none }, some v)

/-- The onComplete callback (useChat.js lines 170-181): commit a finalized
bot message under the placeholder id, clear buffer and placeholder, state
SUCCESS. -/
def onCompleteHandler (streamingId : String) (env : IdEnv) (finalText : Str)
    (s : ChatHookState) : ChatHookState :=
  let botMessage := { createBotMessage env finalText with id := streamingId }
  { s with
      messages := s.messages ++ [botMessage]
      streamingContent := []
      streamingMessageId := none
      chatState := ChatState.success }

/-- The onError callback (useChat.js lines 182-191; the catch block at lines
193-202 is identical): append the generic error message, clear buffer and
placeholder, surface err.message, state ERROR. -/
def onErrorHandler (env : IdEnv) (err : ErrObj) (s : ChatHookState) :
    ChatHookState :=
  { s with
      messages := s.messages ++ [createErrorMessage env err]
      streamingContent := []
      streamingMessageId := none
      error := some err.message
      chatState := ChatState.error }

/-- cancelStreaming (useChat.js lines 119-133): always ask the provider to
abort (the Boolean output records that provider.cancelStream() was invoked);
if a placeholder exists and the published streaming content is non-empty,
commit it verbatim as a bot message under the placeholder id; then clear
buffer state and return to IDLE. -/
def cancelStreaming (env : IdEnv) (s : ChatHookState) : ChatHookState × Bool :=
  let s1 :=
    match s.streamingMessageId with
    | some sid =>
        if s.streamingContent.isEmpty then s
        else
          { s with messages :=
              s.messages ++ [{ createBotMessage env s.streamingContent with id := sid }] }
    | none => s
  ({ s1 with
      streamingContent := []
      streamingMessageId := none
      chatState := ChatState.idle }, true)

/-- Apply a sequence of buffer events (provider onChunk calls and animation
frames) to the hook state during a streaming session. -/
def applyBufEvents (events : List BufferEvent) (s : ChatHookState) : ChatHookState :=
  events.foldl (fun st e =>
    match e with
    | BufferEvent.update c => updateStreamingContent c st
    | BufferEvent.frame => rafFire st) s

/-- A full successful session: sendMessage, then the streamed chunk/frame
events, then onComplete with the provider's final text. -/
def runSuccessSession (env : IdEnv) (input : Str) (events : List BufferEvent)
    (finalText : Str) (s₀ : ChatHookState) : ChatHookState :=
  match sendMessage env input s₀ with
  | (s₁, some _prompt) =>
      onCompleteHandler (streamingIdOf env) env finalText (applyBufEvents events s₁)
  | (s₁, none) => s₁

/-- A session ending in a provider error: sendMessage, then the streamed
chunk/frame events, then onError. -/
def runErrorSession (env : IdEnv) (input : Str) (events : List BufferEvent)
    (err : ErrObj) (s₀ : ChatHookState) : ChatHookState :=
  match sendMessage env input s₀ with
  | (s₁, some _prompt) => onErrorHandler env err (applyBufEvents events s₁)
  | (s₁, none) => s₁

/-! ### GeminiProvider (src/services/geminiService.js) -/

/-- A browser AbortController: only its signal's aborted flag is observed. -/
structure AbortController where
  aborted : Bool
  deriving Repr, DecidableEq

/-- The provider's mutable field relevant to streaming. -/
structure ProviderState where
  activeAbortController : Option AbortController
  deriving Repr, DecidableEq

/-- cancelStream (geminiService.js lines 75-80 / 560-565): if a controller is
active, call its abort() and null the field; otherwise do nothing.  The
aborted controller is dropped here: no later read of
`this.activeAbortController` can ever observe its aborted flag. -/
def cancelStream (p : ProviderState) : ProviderState :=
  match p.activeAbortController with
  | some _ => { activeAbortController := none }
  | none => p

/-- The abort check inside the streaming loop:
`this.activeAbortController?.signal.aborted` with optional chaining. -/
def abortedCheck (p : ProviderState) : Bool :=
  match p.activeAbortController with
  | some c => c.aborted
  | none => false

/-- _handleError (geminiService.js): categorise an upstream error by substring
matching on its lowercased message.  The argument is optional because the
caller passes a possibly-null lastError through `error?.message?.toLowerCase()
|| ''`; every branch returns an error built by _createError with one of the
defined ERROR_TYPES. -/
def handleErrorJs (error : Option ErrObj) : ErrObj :=
  let message := toLowerStr ((error.map ErrObj.message).getD [])
  if includesStr message "api key".toList || includesStr message "api_key".toList
      || includesStr message "invalid".toList then
    createError ErrorType.API_KEY_INVALID
      "Invalid API key. Please check your configuration.".toList
  else if includesStr message "quota".toList
      || includesStr message "limit exceeded".toList then
    createError ErrorType.QUOTA_EXCEEDED
      "API quota exceeded. Please try again later.".toList
  else if includesStr message "rate".toList || includesStr message "429".toList then
    createError ErrorType.RATE_LIMITED
      "Rate limit exceeded. Please slow down.".toList
  else if includesStr message "network".toList || includesStr message "fetch".toList
      || includesStr message "timeout".toList then
    createError ErrorType.NETWORK_ERROR
      "Network error. Please check your connection.".toList
  else
    createError ErrorType.UNKNOWN
      (match error with
        | some e => if e.message.isEmpty then "An unexpected error occurred.".toList
                    else e.message
        | none => "An unexpected error occurred.".toList)

/-- _getModelsToTry (geminiService.js lines 527-531): the primary model from
config (or API_CONFIG.MODEL) followed by API_CONFIG.FALLBACK_MODELS || []. -/
def getModelsToTry (configModel : Option String)
    (fallbackModels : Option (List String)) : List String :=
  (configModel.getD API_CONFIG_MODEL) :: fallbackModels.getD []

/-- The behaviour of one model attempt as seen at the SDK boundary: the delta
chunks its stream yields, then either normal completion (none) or a thrown
error (some err).  The in-loop `signal.aborted` break is not a separate
outcome here: cancelStream always nulls activeAbortController, so that check
reads null and never fires (established concretely by the C6 development). -/
structure ModelRun where
  chunks : List Str
  outcome : Option ErrObj
  deriving Repr, DecidableEq

/-- The running accumulations passed to onChunk: `accumulatedText += chunk`. -/
def prefixAccumsAux (acc : Str) : List Str → List Str
  | [] => []
  | d :: rest => (acc ++ d) :: prefixAccumsAux (acc ++ d) rest

/-- The list of onChunk payloads produced by a list of delta chunks. -/
def prefixAccums (chunks : List Str) : List Str := prefixAccumsAux [] chunks

/-- The final accumulatedText after consuming all delta chunks. -/
def accumText (chunks : List Str) : Str := chunks.foldl (· ++ ·) []

/-- A callback fired by generateStreamingResponse. -/
inductive CbEvent
  | chunkCb (accumulated : Str)
  | completeCb (finalText : Str)
  | errorCb (e : ErrObj)
  deriving Repr, DecidableEq

/-- The model-fallback loop of generateStreamingResponse (geminiService.js
lines 601-638): try each model in order; a model that completes wins
(onComplete with its accumulated text); a thrown AbortError returns
immediately with no further attempts and no onError; any other error is
remembered as lastError and the next model is tried; when the list is
exhausted, the categorised lastError is passed to onError and thrown.
Returns the fired callbacks and the overall result (`Except.ok none`
models the bare `return` of the AbortError path). -/
def tryModelsLoop : List ModelRun → Option ErrObj →
    List CbEvent × Except ErrObj (Option Str)
  | [], lastError =>
      let e := handleErrorJs lastError
      ([CbEvent.errorCb e], Except.error e)
  | r :: rest, _lastError =>
      let cbs := (prefixAccums r.chunks).map CbEvent.chunkCb
      match r.outcome with
      | none =>
          let acc := accumText r.chunks
          (cbs ++ [CbEvent.completeCb acc], Except.ok (some acc))
      | some err =>
          if err.name = "AbortError" then (cbs, Except.ok none)
          else
            match tryModelsLoop rest (some err) with
            | (cbs', res) => (cbs ++ cbs', res)

/-- generateStreamingResponse (geminiService.js lines 576-639) at the level of
model attempts: the behaviour of each named model is supplied by `behavior`,
and the attempt order comes from _getModelsToTry. -/
def generateStreamingResponse (behavior : String → ModelRun)
    (configModel : Option String) (fallbackModels : Option (List String)) :
    List CbEvent × Except ErrObj (Option Str) :=
  tryModelsLoop ((getModelsToTry configModel fallbackModels).map behavior) none

/-- Project the overall result of the fallback loop to a decidable shape. -/
def streamResultText : Except ErrObj (Option Str) → Option (Option Str)
  | Except.ok v => some v
  | Except.error _ => none

/-! ### The live cancellation machine (useChat.js cancelStreaming combined
with the streaming loop of geminiService.js)

Models one in-flight session: the hook state, the provider state, the loop's
accumulatedText, and whether the SDK stream loop is still open.  Events are
the SDK yielding its next delta chunk, an animation frame, and the user
invoking cancelStreaming. -/

/-- Combined state of the hook and the provider during one session. -/
structure LiveSession where
  hook : ChatHookState
  provider : ProviderState
  accumulated : Str
  streamOpen : Bool
  deriving Repr, DecidableEq

/-- An event during a live streaming session. -/
inductive LiveEvent
  | sdkChunk (delta : Str)
  | raf
  | cancel
  deriving Repr, DecidableEq

/-- One step of the live session.  A chunk arriving while the loop is open
first runs the loop's abort check (which reads this.activeAbortController);
if it does not fire, the delta is accumulated and onChunk (that is,
updateStreamingContent) runs.  cancel runs cancelStreaming, which calls
provider.cancelStream() and finalizes any visible partial text. -/
def liveStep (env : IdEnv) (s : LiveSession) : LiveEvent → LiveSession
  | LiveEvent.sdkChunk d =>
      if s.streamOpen then
        if abortedCheck s.provider then { s with streamOpen := false }
        else
          let acc := s.accumulated ++ d
          { s with accumulated := acc, hook := updateStreamingContent acc s.hook }
      else s
  | LiveEvent.raf => { s with hook := rafFire s.hook }
  | LiveEvent.cancel =>
      { s with
          provider := cancelStream s.provider
          hook := (cancelStreaming env s.hook).1 }

/-- Run a live session over a sequence of events. -/
def runLive (env : IdEnv) (s : LiveSession) (events : List LiveEvent) : LiveSession :=
  events.foldl (liveStep env) s

/-- Stream termination (geminiService.js lines 133-137 / 617-621): after the
for-await loop ends - whether it ran to completion or exited via break - the
controller field is nulled and onComplete fires with the accumulatedText. -/
def finalizeStream (streamingId : String) (env : IdEnv) (s : LiveSession) :
    LiveSession :=
  { s with
      provider := { activeAbortController := none }
      hook := onCompleteHandler streamingId env s.accumulated s.hook }

/-! ### useStickyScroll (src/hooks/useStickyScroll.js) -/

/-- SCROLL_THRESHOLD: distance from the bottom still counted as at-bottom. -/
def SCROLL_THRESHOLD : Int := 50

/-- The scroll geometry of the tracked container at a sample. -/
structure ScrollMetrics where
  scrollTop : Int
  scrollHeight : Int
  clientHeight : Int
  deriving Repr, DecidableEq

/-- isAtBottom: scrollHeight - scrollTop - clientHeight <= SCROLL_THRESHOLD. -/
def isAtBottom (m : ScrollMetrics) : Bool :=
  m.scrollHeight - m.scrollTop - m.clientHeight ≤ SCROLL_THRESHOLD

/-- The refs of useStickyScroll that drive auto-follow decisions. -/
structure StickyState where
  isUserScrolledUp : Bool
  lastScrollTop : Int
  lastContentLength : Nat
  deriving Repr, DecidableEq

/-- The debounced scroll check firing (useStickyScroll handleScroll, lines
386-399): upward motion away from the bottom disables auto-follow; being at
the bottom re-enables it regardless of direction; then the sample position is
recorded. -/
def handleScroll (currentScrollTop : Int) (m : ScrollMetrics)
    (st : StickyState) : StickyState :=
  let scrollingUp := decide (currentScrollTop < st.lastScrollTop)
  let atBottom := isAtBottom m
  let st' :=
    if scrollingUp && !atBottom then { st with isUserScrolledUp := true }
    else if atBottom then { st with isUserScrolledUp := false }
    else st
  { st' with lastScrollTop := currentScrollTop }

/-- The RAF-batched scrollToBottom (lines 351-370): the callback moves the
container to scrollHeight only when the user has not scrolled up; the output
is the new scrollTop target, or none when no movement happens. -/
def scrollToBottomMove (st : StickyState) (m : ScrollMetrics) : Option Int :=
  if st.isUserScrolledUp = false then some m.scrollHeight else none

/-- The streaming-growth effect (lines 428-446): outside streaming, reset the
recorded length; during streaming, on actual growth record the new length and
attempt an auto-scroll, which is gated on isUserScrolledUp. -/
def streamGrowthEffect (isStreaming : Bool) (st : StickyState)
    (contentLength : Nat) (m : ScrollMetrics) : StickyState × Option Int :=
  if isStreaming = false then ({ st with lastContentLength := 0 }, none)
  else if st.lastContentLength < contentLength then
    let st' := { st with lastContentLength := contentLength }
    if st.isUserScrolledUp = false then (st', scrollToBottomMove st' m)
    else (st', none)
  else (st, none)

/-! ### Shared lemmas about the update buffer -/

/-- A concrete environment used by witnesses and counterexamples. -/
def envC : IdEnv := ⟨"id-1", 1000⟩

lemma updateStreamingContent_eq (c : Str) (s : ChatHookState) :
    updateStreamingContent c s = { s with pendingChunk := c, rafPending := true } := by
  cases s with
  | mk m cs e iv sc id pc rp =>
      unfold updateStreamingContent
      by_cases h : rp = true <;> simp [h]

lemma bufInputs_update (c : Str) (t : List BufferEvent) :
    bufInputs (BufferEvent.update c :: t) = c :: bufInputs t := rfl

lemma bufInputs_frame (t : List BufferEvent) :
    bufInputs (BufferEvent.frame :: t) = bufInputs t := rfl

lemma bufRun_cons (s : ChatHookState) (e : BufferEvent) (rest : List BufferEvent) :
    bufRun s (e :: rest) =
      ((bufRun (bufStep s e).1 rest).1,
        (bufStep s e).2.toList ++ (bufRun (bufStep s e).1 rest).2) := rfl

/-- Every published value is the buffer slot at some flush: the published list
is a subsequence of the slot's history, namely the pending slot value (if a
flush is already scheduled) followed by the update contents in order. -/
lemma bufRun_published_sublist (t : List BufferEvent) (s : ChatHookState) :
    (bufRun s t).2.Sublist
      (if s.rafPending then s.pendingChunk :: bufInputs t else bufInputs t) := by
  induction t generalizing s with
  | nil =>
      by_cases h : s.rafPending = true <;> simp [bufRun, bufInputs, h]
  | cons e rest ih =>
      cases e with
      | update c =>
          have hstep : bufStep s (BufferEvent.update c) =
              ({ s with pendingChunk := c, rafPending := true }, none) := by
            simp [bufStep, updateStreamingContent_eq]
          have h2 := ih { s with pendingChunk := c, rafPending := true }
          rw [if_pos rfl] at h2
          rw [bufRun_cons, hstep]
          simp only [Option.toList, List.nil_append, bufInputs_update]
          by_cases h : s.rafPending = true
          · rw [if_pos h]
            exact List.Sublist.cons _ h2
          · rw [if_neg h]
            exact h2
      | frame =>
          by_cases h : s.rafPending = true
          · have hraf : rafFire s =
                { s with streamingContent := s.pendingChunk, rafPending := false } := by
              simp [rafFire, h]
            have hstep : bufStep s BufferEvent.frame =
                ({ s with streamingContent := s.pendingChunk, rafPending := false },
                  some s.pendingChunk) := by
              simp [bufStep, h, hraf]
            have h2 := ih { s with streamingContent := s.pendingChunk, rafPending := false }
            rw [if_neg (by simp)] at h2
            rw [bufRun_cons, hstep, if_pos h]
            simp only [Option.toList, List.singleton_append, bufInputs_frame]
            exact List.Sublist.cons₂ _ h2
          · have hstep : bufStep s BufferEvent.frame = (s, none) := by
              simp [bufStep, h]
            have h2 := ih s
            rw [if_neg h] at h2
            rw [bufRun_cons, hstep, if_neg h]
            simp only [Option.toList, List.nil_append, bufInputs_frame]
            exact h2

/-- C1: for every buffer event sequence whose update contents grow by
extension (each cumulative text a prefix of the next), the published values
form a subsequence of the update contents - no reordering - and their lengths
never decrease: no published value is shorter than an earlier one.  Confirms
the ordering guarantee of updateStreamingContent. -/
theorem claim_C1_buffer_monotone (t : List BufferEvent)
    (hmono : List.Chain' (fun a b : Str => a <+: b) (bufInputs t)) :
    (bufRun emptyChat t).2.Sublist (bufInputs t) ∧
    List.Chain' (fun a b : Str => a.length ≤ b.length) (bufRun emptyChat t).2 := by
  have hsub := bufRun_published_sublist t emptyChat
  rw [if_neg (by simp [emptyChat])] at hsub
  refine ⟨hsub, ?_⟩
  have hlen : List.Chain' (fun a b : Str => a.length ≤ b.length) (bufInputs t) :=
    hmono.imp (fun _ _ h => List.IsPrefix.length_le h)
  haveI : IsTrans Str (fun a b : Str => a.length ≤ b.length) :=
    ⟨fun _ _ _ h1 h2 => le_trans h1 h2⟩
  have hpw : List.Pairwise (fun a b : Str => a.length ≤ b.length) (bufInputs t) :=
    List.chain'_iff_pairwise.mp hlen
  exact (List.Pairwise.sublist hsub hpw).chain'

/-- Witness for C1 at a concrete growing sequence. -/
theorem witness_C1 :
    (bufRun emptyChat [BufferEvent.update "a".toList, BufferEvent.frame,
        BufferEvent.update "ab".toList, BufferEvent.frame]).2.Sublist
      (bufInputs [BufferEvent.update "a".toList, BufferEvent.frame,
        BufferEvent.update "ab".toList, BufferEvent.frame]) ∧
    List.Chain' (fun a b : Str => a.length ≤ b.length)
      (bufRun emptyChat [BufferEvent.update "a".toList, BufferEvent.frame,
        BufferEvent.update "ab".toList, BufferEvent.frame]).2 :=
  claim_C1_buffer_monotone _ (by
    simp only [bufInputs, List.filterMap_cons, List.filterMap_nil]
    refine List.chain'_cons.mpr ⟨⟨['b'], rfl⟩, ?_⟩
    simp)

/-- C2 counterexample: updateStreamingContent enforces no 50ms minimum
inter-flush interval.  With updates (flush requests) at t=0 and t=20 - spaced
less than 50ms apart - and animation frames at t=16 and t=33, two flushes
fire within 50ms of the first request, 17ms apart, contradicting both the
minimum-interval rule and the exactly-one-flush-within-F guarantee. -/
theorem counterexample_C2_flush_interval :
    (timedRun emptyChat [(0, BufferEvent.update "a".toList), (16, BufferEvent.frame),
        (20, BufferEvent.update "b".toList), (33, BufferEvent.frame)]).map Prod.fst
      = [16, 33] ∧
    (((timedRun emptyChat [(0, BufferEvent.update "a".toList), (16, BufferEvent.frame),
        (20, BufferEvent.update "b".toList), (33, BufferEvent.frame)]).map Prod.fst).filter
      (fun x => decide (x ≤ 50))).length ≠ 1 ∧
    20 - 0 < 50 ∧ 33 - 16 < 50 := by decide

/-- C2 amended: the scheduler batches through a single pending animation-frame
callback instead of a 50ms interval: a schedule call while a flush is pending
only overwrites the buffer slot (no second callback, no immediate publish); a
frame with no pending flush publishes nothing; and the number of flushes never
exceeds the number of flush requests. -/
theorem claim_C2_raf_batching :
    (∀ (s : ChatHookState) (c : Str), s.rafPending = true →
        bufStep s (BufferEvent.update c) = ({ s with pendingChunk := c }, none)) ∧
    (∀ s : ChatHookState, s.rafPending = false →
        bufStep s BufferEvent.frame = (s, none)) ∧
    (∀ (s : ChatHookState) (t : List BufferEvent), s.rafPending = false →
        (bufRun s t).2.length ≤ (bufInputs t).length) := by
  refine ⟨?_, ?_, ?_⟩
  · intro s c h
    cases s with
    | mk m cs e iv sc id pc rp =>
        simp [bufStep, updateStreamingContent_eq]
        simp_all
  · intro s h
    simp [bufStep, h]
  · intro s t h
    have hsub := bufRun_published_sublist t s
    rw [if_neg (by simp [h])] at hsub
    exact hsub.length_le

/-- Witness for C2 at concrete states and a concrete coalescing trace. -/
theorem witness_C2 :
    bufStep { emptyChat with rafPending := true, pendingChunk := "a".toList }
        (BufferEvent.update "b".toList) =
      ({ emptyChat with rafPending := true, pendingChunk := "b".toList }, none) ∧
    bufStep emptyChat BufferEvent.frame = (emptyChat, none) ∧
    (bufRun emptyChat [BufferEvent.update "a".toList, BufferEvent.update "b".toList,
        BufferEvent.frame]).2.length ≤
      (bufInputs [BufferEvent.update "a".toList, BufferEvent.update "b".toList,
        BufferEvent.frame]).length :=
  ⟨claim_C2_raf_batching.1 _ _ rfl, claim_C2_raf_batching.2.1 _ rfl,
    claim_C2_raf_batching.2.2 _ _ rfl⟩

/-! ### Session lemmas -/

/-- Buffer activity (onChunk updates and animation frames) never touches the
conversation list. -/
lemma applyBufEvents_messages (events : List BufferEvent) (s : ChatHookState) :
    (applyBufEvents events s).messages = s.messages := by
  induction events generalizing s with
  | nil => rfl
  | cons e rest ih =>
      cases e with
      | update c =>
          rw [show applyBufEvents (BufferEvent.update c :: rest) s =
              applyBufEvents rest (updateStreamingContent c s) from rfl, ih]
          simp [updateStreamingContent_eq]
      | frame =>
          rw [show applyBufEvents (BufferEvent.frame :: rest) s =
              applyBufEvents rest (rafFire s) from rfl, ih]
          unfold rafFire
          by_cases h : s.rafPending = true <;> simp [h]

/-- C3 counterexample: on completion the session state is SUCCESS, a state
distinct from IDLE, so the claimed transition to Idle fails on the code
(the spec's own scenario input: send "Hello", cumulative chunks, final
"Hello"). -/
theorem counterexample_C3_not_idle :
    (runSuccessSession envC "Hello".toList
        [BufferEvent.update "H".toList, BufferEvent.frame, BufferEvent.update "He".toList,
          BufferEvent.update "Hel".toList, BufferEvent.frame,
          BufferEvent.update "Hello".toList, BufferEvent.frame]
        "Hello".toList emptyChat).chatState = ChatState.success ∧
    ChatState.success ≠ ChatState.idle := by decide

/-- C3 amended: starting from an empty conversation, a completed streaming
session leaves exactly the user message followed by a bot message with the
final text under the placeholder streaming id; buffer and placeholder are
cleared; and the session transitions to SUCCESS (the code's terminal state
after completion), not Idle. -/
theorem claim_C3_success_commit (env : IdEnv) (M T : Str) (events : List BufferEvent)
    (h : validateMessage M = ValidationResult.valid M) :
    (runSuccessSession env M events T emptyChat).messages =
      [createUserMessage env M, { createBotMessage env T with id := streamingIdOf env }] ∧
    (runSuccessSession env M events T emptyChat).streamingContent = [] ∧
    (runSuccessSession env M events T emptyChat).streamingMessageId = none ∧
    (runSuccessSession env M events T emptyChat).chatState = ChatState.success := by
  unfold runSuccessSession sendMessage
  rw [h]
  simp [onCompleteHandler, applyBufEvents_messages, emptyChat]

/-- Witness for C3 at the spec scenario input. -/
theorem witness_C3 :
    validateMessage "Hello".toList = ValidationResult.valid "Hello".toList ∧
    (runSuccessSession envC "Hello".toList [] "Hello".toList emptyChat).messages =
      [createUserMessage envC "Hello".toList,
        { createBotMessage envC "Hello".toList with id := streamingIdOf envC }] ∧
    (runSuccessSession envC "Hello".toList [] "Hello".toList emptyChat).chatState =
      ChatState.success :=
  ⟨by decide,
    (claim_C3_success_commit envC "Hello".toList "Hello".toList [] (by decide)).1,
    (claim_C3_success_commit envC "Hello".toList "Hello".toList [] (by decide)).2.2.2⟩

/-- C4 counterexample: with partial text "Hi" already accumulated and flushed
to the streaming state, a provider error commits the generic apology message -
the partial text is discarded, not committed - and the session ends in the
ERROR state, not Idle. -/
theorem counterexample_C4_partial_discarded :
    (applyBufEvents [BufferEvent.update "Hi".toList, BufferEvent.frame]
        (sendMessage envC "Hello".toList emptyChat).1).streamingContent = "Hi".toList ∧
    ((runErrorSession envC "Hello".toList
        [BufferEvent.update "Hi".toList, BufferEvent.frame]
        ⟨"Error", none, "quota exceeded".toList⟩ emptyChat).messages.map
      Message.text).getLast? = some apologyText ∧
    apologyText ≠ "Hi".toList ∧
    (runErrorSession envC "Hello".toList [BufferEvent.update "Hi".toList, BufferEvent.frame]
        ⟨"Error", none, "quota exceeded".toList⟩ emptyChat).chatState = ChatState.error ∧
    ChatState.error ≠ ChatState.idle := by decide

/-- C4 amended: on a provider error the generic apology message (status ERROR,
error details in metadata) is always committed - any accumulated partial text
is discarded - the streaming placeholder and buffer are cleared (no orphaned
streaming entry), the error string is surfaced, and the session ends in the
ERROR state (not Idle). -/
theorem claim_C4_error_commit (env : IdEnv) (err : ErrObj) (input v : Str)
    (events : List BufferEvent)
    (h : validateMessage input = ValidationResult.valid v) :
    (runErrorSession env input events err emptyChat).messages =
      [createUserMessage env v, createErrorMessage env err] ∧
    (createErrorMessage env err).text = apologyText ∧
    (createErrorMessage env err).status = MessageStatus.error ∧
    (runErrorSession env input events err emptyChat).streamingContent = [] ∧
    (runErrorSession env input events err emptyChat).streamingMessageId = none ∧
    (runErrorSession env input events err emptyChat).error = some err.message ∧
    (runErrorSession env input events err emptyChat).chatState = ChatState.error := by
  unfold runErrorSession sendMessage
  rw [h]
  simp [onErrorHandler, applyBufEvents_messages, createErrorMessage, createMessage,
    noOptions, emptyChat]

/-- Witness for C4 at a concrete failing session. -/
theorem witness_C4 :
    validateMessage "Hello".toList = ValidationResult.valid "Hello".toList ∧
    (runErrorSession envC "Hello".toList [] ⟨"Error", none, "boom".toList⟩
        emptyChat).messages =
      [createUserMessage envC "Hello".toList,
        createErrorMessage envC ⟨"Error", none, "boom".toList⟩] ∧
    (runErrorSession envC "Hello".toList [] ⟨"Error", none, "boom".toList⟩
        emptyChat).chatState = ChatState.error :=
  ⟨by decide,
    (claim_C4_error_commit envC ⟨"Error", none, "boom".toList⟩ "Hello".toList "Hello".toList [] (by decide)).1,
    (claim_C4_error_commit envC ⟨"Error", none, "boom".toList⟩ "Hello".toList "Hello".toList [] (by decide)).2.2.2.2.2.2⟩

/-- C5 counterexample: cancelStreaming commits the buffered text verbatim,
with no trimming and no non-empty-after-trim guard.  With whitespace-only
buffered text " " a message whose text is the untrimmed " " is committed,
although the trimmed partial text is empty. -/
theorem counterexample_C5_untrimmed_commit :
    trim " ".toList = [] ∧
    ((cancelStreaming envC { emptyChat with
        chatState := ChatState.streaming
        streamingMessageId := some "s1"
        streamingContent := " ".toList }).1.messages.map Message.text) = [" ".toList] ∧
    " ".toList ≠ trim " ".toList := by decide

/-- C5 amended: on explicit cancellation the provider is told to abort; if a
placeholder exists and the raw buffered text is non-empty (no trimming is
applied, and whitespace-only text counts as non-empty), exactly the raw
buffered text is committed as a bot message under the placeholder id; the
buffer and placeholder are cleared and the session returns to IDLE. -/
theorem claim_C5_cancel_commit (env : IdEnv) (s : ChatHookState) (sid : String)
    (h1 : s.streamingMessageId = some sid) (h2 : s.streamingContent ≠ []) :
    (cancelStreaming env s).2 = true ∧
    (cancelStreaming env s).1.messages =
      s.messages ++ [{ createBotMessage env s.streamingContent with id := sid }] ∧
    (cancelStreaming env s).1.streamingContent = [] ∧
    (cancelStreaming env s).1.streamingMessageId = none ∧
    (cancelStreaming env s).1.chatState = ChatState.idle := by
  unfold cancelStreaming
  rw [h1]
  have hne : s.streamingContent.isEmpty = false := by
    simpa [List.isEmpty_iff] using h2
  simp [hne]

/-- Witness for C5 at a concrete cancelled session. -/
theorem witness_C5 :
    (cancelStreaming envC { emptyChat with
        chatState := ChatState.streaming
        streamingMessageId := some "s1"
        streamingContent := "hi".toList }).1.messages =
      [{ createBotMessage envC "hi".toList with id := "s1" }] ∧
    (cancelStreaming envC { emptyChat with
        chatState := ChatState.streaming
        streamingMessageId := some "s1"
        streamingContent := "hi".toList }).1.chatState = ChatState.idle := by
  have h := claim_C5_cancel_commit envC { emptyChat with
      chatState := ChatState.streaming
      streamingMessageId := some "s1"
      streamingContent := "hi".toList } "s1" rfl (by decide)
  exact ⟨h.2.1, h.2.2.2.2⟩

/-! ### Validation lemmas (C7, C10) -/

lemma dropWhile_ws_replicate (n : Nat) :
    List.dropWhile isJsWhitespace (List.replicate n 'a') = List.replicate n 'a' := by
  cases n with
  | zero => rfl
  | succ m =>
      rw [List.replicate_succ, List.dropWhile_cons]
      simp [show isJsWhitespace 'a' = false from rfl]

lemma trim_replicate (n : Nat) :
    trim (List.replicate n 'a') = List.replicate n 'a' := by
  unfold trim
  rw [dropWhile_ws_replicate, List.reverse_replicate, dropWhile_ws_replicate,
    List.reverse_replicate]

lemma trim_space_cons (l : Str) : trim (' ' :: l) = trim l := by
  unfold trim
  rw [List.dropWhile_cons]
  simp [show isJsWhitespace ' ' = true from rfl]

/-- A run of letters, of any positive length within the limit, validates to
itself. -/
lemma validateMessage_replicate (n : Nat) (h0 : ¬n = 0)
    (h1 : ¬MAX_MESSAGE_LENGTH < n) :
    validateMessage (List.replicate n 'a') =
      ValidationResult.valid (List.replicate n 'a') := by
  have hne : ¬((List.replicate n 'a').isEmpty = true) := by
    cases n with
    | zero => exact absurd rfl h0
    | succ m => rw [List.replicate_succ]; exact fun hh => nomatch hh
  unfold validateMessage
  rw [if_neg hne, trim_replicate, List.length_replicate, if_neg h0, if_neg h1]

/-- A raw input of n+1 characters (one leading space) whose trimmed length is
n passes validation when n is positive and within the limit: the length check
runs on the trimmed value. -/
lemma validateMessage_pad (n : Nat) (h0 : ¬n = 0) (h1 : ¬MAX_MESSAGE_LENGTH < n) :
    validateMessage (' ' :: List.replicate n 'a') =
      ValidationResult.valid (List.replicate n 'a') := by
  have hne : ¬((' ' :: List.replicate n 'a').isEmpty = true) := fun hh => nomatch hh
  unfold validateMessage
  rw [if_neg hne, trim_space_cons, trim_replicate, List.length_replicate,
    if_neg h0, if_neg h1]

/-- C7 counterexample: the input consisting of one space followed by 10000
letters has raw length 10001 > 10000, yet sendMessage accepts it, appends the
user message and starts a streaming session with the trimmed prompt -
refuting the claim for inputs "whose length exceeds the configured maximum". -/
theorem counterexample_C7_raw_length :
    10000 < (' ' :: List.replicate 10000 'a').length ∧
    (sendMessage envC (' ' :: List.replicate 10000 'a') emptyChat).1.chatState =
      ChatState.streaming ∧
    (sendMessage envC (' ' :: List.replicate 10000 'a') emptyChat).1.messages ≠ [] ∧
    (sendMessage envC (' ' :: List.replicate 10000 'a') emptyChat).2 =
      some (List.replicate 10000 'a') := by
  have hval := validateMessage_pad 10000 (by decide) (by decide)
  refine ⟨?_, ?_, ?_, ?_⟩
  · rw [List.length_cons, List.length_replicate]
    exact Nat.lt_succ_self 10000
  · unfold sendMessage
    rw [hval]
  · unfold sendMessage
    rw [hval]
    exact List.cons_ne_nil _ _
  · unfold sendMessage
    rw [hval]

/-- C7 amended: inputs that are empty, whitespace-only, or whose trimmed
length exceeds 10000 characters are rejected: sendMessage records the
validation error, leaves the conversation list and session state untouched,
and never calls the provider.  (A raw length above 10000 is accepted when
surrounding whitespace brings the trimmed length within the limit.) -/
theorem claim_C7_validation_rejects (env : IdEnv) (s : ChatHookState) (input : Str)
    (h : input = [] ∨ trim input = [] ∨ MAX_MESSAGE_LENGTH < (trim input).length) :
    ∃ e, validateMessage input = ValidationResult.invalid e ∧
      (sendMessage env input s).1.messages = s.messages ∧
      (sendMessage env input s).1.chatState = s.chatState ∧
      (sendMessage env input s).1.error = some e ∧
      (sendMessage env input s).2 = none := by
  have hinv : ∃ e, validateMessage input = ValidationResult.invalid e := by
    unfold validateMessage
    split_ifs with h0 h1 h2
    · exact ⟨_, rfl⟩
    · exact ⟨_, rfl⟩
    · exact ⟨_, rfl⟩
    · exfalso
      rcases h with hc | hc | hc
      · exact h0 (by rw [hc]; rfl)
      · exact h1 (by rw [hc]; rfl)
      · exact h2 hc
  obtain ⟨e, he⟩ := hinv
  refine ⟨e, he, ?_, ?_, ?_, ?_⟩ <;> (unfold sendMessage; rw [he])

/-- Witness for C7 at a whitespace-only input. -/
theorem witness_C7 :
    (sendMessage envC " ".toList emptyChat).1.messages = [] ∧
    (sendMessage envC " ".toList emptyChat).2 = none := by
  obtain ⟨e, _, hm, _, _, hp⟩ := claim_C7_validation_rejects envC emptyChat " ".toList
    (Or.inr (Or.inl (by decide)))
  exact ⟨hm, hp⟩

/-- The value carried by a successful validation is exactly the trimmed
input. -/
lemma validateMessage_valid_value (input v : Str)
    (h : validateMessage input = ValidationResult.valid v) : v = trim input := by
  unfold validateMessage at h
  split_ifs at h
  injection h with h'
  exact h'.symm

/-- C10: for every accepted input, the appended user message's text and the
prompt passed to the provider are both the trimmed input (not the raw input);
and an input of exactly 10000 non-whitespace characters is accepted. -/
theorem claim_C10_trimmed_prompt (input v : Str)
    (h : validateMessage input = ValidationResult.valid v) :
    v = trim input ∧
    (∀ (env : IdEnv) (s : ChatHookState),
        (sendMessage env input s).1.messages =
          s.messages ++ [createUserMessage env (trim input)] ∧
        (createUserMessage env (trim input)).text = trim input ∧
        (sendMessage env input s).2 = some (trim input)) ∧
    validateMessage (List.replicate 10000 'a') =
      ValidationResult.valid (List.replicate 10000 'a') := by
  have hv := validateMessage_valid_value input v h
  subst hv
  refine ⟨rfl, ?_, ?_⟩
  · intro env s
    unfold sendMessage
    rw [h]
    exact ⟨rfl, rfl, rfl⟩
  · exact validateMessage_replicate 10000 (by decide) (by decide)

/-- Witness for C10 at a padded concrete input. -/
theorem witness_C10 :
    "hi".toList = trim " hi ".toList ∧
    (sendMessage envC " hi ".toList emptyChat).2 = some (trim " hi ".toList) := by
  have h := claim_C10_trimmed_prompt " hi ".toList "hi".toList (by decide)
  exact ⟨h.1, (h.2.1 envC emptyChat).2.2⟩

/-! ### C6: cancellation safety -/

/-- C6: cancelStream is idempotent and safe with no active stream (the first
two conjuncts, which hold), but cancellation can double-commit: cancelStream
nulls activeAbortController before the streaming loop re-reads
`this.activeAbortController?.signal.aborted`, so after a user cancellation
the check reads null, never fires, the stream keeps running and onComplete
commits a second finalized message under the same placeholder id that
cancelStreaming already used for the partial text.  The third conjunct
evaluates the code on such a schedule: chunk "H", flush, user cancel, chunk
"e", stream end - the conversation then holds two messages with the
placeholder id "streaming-1000". -/
theorem claim_C6_cancel_double_commit :
    (∀ p : ProviderState, cancelStream (cancelStream p) = cancelStream p) ∧
    cancelStream { activeAbortController := none } =
      { activeAbortController := none } ∧
    ((finalizeStream (streamingIdOf envC) envC
        (runLive envC
          { hook := (sendMessage envC "Hi".toList emptyChat).1
            provider := { activeAbortController := some { aborted := false } }
            accumulated := []
            streamOpen := true }
          [LiveEvent.sdkChunk "H".toList, LiveEvent.raf, LiveEvent.cancel,
            LiveEvent.sdkChunk "e".toList])).hook.messages.countP
      (fun m => m.id == streamingIdOf envC)) = 2 := by
  refine ⟨?_, rfl, by decide⟩
  intro p
  cases p with
  | mk ctrl => cases ctrl <;> rfl

/-! ### C8: scroll-intent tracking -/

/-- C8: (1) an upward debounced sample taken more than the 50px threshold
from the bottom sets isUserScrolledUp; (2) while it is set, streaming growth
does not move the scroll position; (3) a sample within the threshold clears
it regardless of direction; (4) once cleared, the next growth event scrolls
to the bottom again; (5) an auto-scroll attempt moves the position only when
isUserScrolledUp is false. -/
theorem claim_C8_scroll_intent :
    (∀ (cur : Int) (m : ScrollMetrics) (st : StickyState),
        cur < st.lastScrollTop →
        SCROLL_THRESHOLD < m.scrollHeight - m.scrollTop - m.clientHeight →
        (handleScroll cur m st).isUserScrolledUp = true) ∧
    (∀ (st : StickyState) (len : Nat) (m : ScrollMetrics),
        st.isUserScrolledUp = true →
        (streamGrowthEffect true st len m).2 = none) ∧
    (∀ (cur : Int) (m : ScrollMetrics) (st : StickyState),
        m.scrollHeight - m.scrollTop - m.clientHeight ≤ SCROLL_THRESHOLD →
        (handleScroll cur m st).isUserScrolledUp = false) ∧
    (∀ (st : StickyState) (len : Nat) (m : ScrollMetrics),
        st.isUserScrolledUp = false → st.lastContentLength < len →
        (streamGrowthEffect true st len m).2 = some m.scrollHeight) ∧
    (∀ (st : StickyState) (m : ScrollMetrics),
        (scrollToBottomMove st m).isSome = true → st.isUserScrolledUp = false) := by
  refine ⟨?_, ?_, ?_, ?_, ?_⟩
  · intro cur m st h1 h2
    have hup : decide (cur < st.lastScrollTop) = true := decide_eq_true h1
    have hbot : isAtBottom m = false := by
      unfold isAtBottom
      exact decide_eq_false (not_le.mpr h2)
    simp [handleScroll, hup, hbot]
  · intro st len m h
    by_cases hl : st.lastContentLength < len <;>
      simp [streamGrowthEffect, scrollToBottomMove, h, hl]
  · intro cur m st h1
    have hbot : isAtBottom m = true := by
      unfold isAtBottom
      exact decide_eq_true h1
    simp [handleScroll, hbot]
  · intro st len m h1 h2
    simp [streamGrowthEffect, scrollToBottomMove, h1, h2]
  · intro st m h
    by_cases hu : st.isUserScrolledUp = false
    · exact hu
    · unfold scrollToBottomMove at h
      rw [if_neg hu] at h
      exact absurd h (by simp)

/-- Witness for C8 at concrete container geometry: 500px from the bottom and
scrolling up disables auto-follow; 10px from the bottom re-enables it; growth
with auto-follow enabled scrolls to the bottom. -/
theorem witness_C8 :
    (handleScroll 50 ⟨0, 1000, 500⟩ ⟨false, 100, 0⟩).isUserScrolledUp = true ∧
    (streamGrowthEffect true ⟨true, 0, 0⟩ 5 ⟨0, 1000, 500⟩).2 = none ∧
    (handleScroll 900 ⟨940, 1000, 500⟩ ⟨true, 100, 0⟩).isUserScrolledUp = false ∧
    (streamGrowthEffect true ⟨false, 0, 0⟩ 5 ⟨0, 1000, 500⟩).2 = some 1000 :=
  ⟨claim_C8_scroll_intent.1 50 ⟨0, 1000, 500⟩ ⟨false, 100, 0⟩ (by decide) (by decide),
    claim_C8_scroll_intent.2.1 ⟨true, 0, 0⟩ 5 ⟨0, 1000, 500⟩ rfl,
    claim_C8_scroll_intent.2.2.1 900 ⟨940, 1000, 500⟩ ⟨true, 100, 0⟩ (by decide),
    claim_C8_scroll_intent.2.2.2.1 ⟨false, 0, 0⟩ 5 ⟨0, 1000, 500⟩ rfl (by decide)⟩

/-! ### C9: model fallback chain -/

/-- Every branch of _handleError attaches one of the defined ERROR_TYPES. -/
lemma handleErrorJs_type_isSome (e : Option ErrObj) :
    (handleErrorJs e).type.isSome = true := by
  unfold handleErrorJs
  dsimp only
  split_ifs <;> rfl

/-- When every model in the list fails with a non-abort error, the loop ends
by passing one categorised error to onError (the last callback) and raising
that same error. -/
lemma tryModelsLoop_all_fail (runs : List ModelRun) (le : Option ErrObj)
    (hall : ∀ r ∈ runs, ∃ e, r.outcome = some e ∧ e.name ≠ "AbortError") :
    ∃ err, (tryModelsLoop runs le).2 = Except.error err ∧
      err.type.isSome = true ∧
      (tryModelsLoop runs le).1.getLast? = some (CbEvent.errorCb err) := by
  induction runs generalizing le with
  | nil => exact ⟨handleErrorJs le, rfl, handleErrorJs_type_isSome le, rfl⟩
  | cons r rest ih =>
      obtain ⟨e, he, hne⟩ := hall r (List.mem_cons_self r rest)
      obtain ⟨err, hres, htype, hlast⟩ :=
        ih (some e) (fun r' hr' => hall r' (List.mem_cons_of_mem r hr'))
      have hstep : tryModelsLoop (r :: rest) le =
          ((prefixAccums r.chunks).map CbEvent.chunkCb ++
              (tryModelsLoop rest (some e)).1,
            (tryModelsLoop rest (some e)).2) := by
        cases r with
        | mk chunks outcome =>
            cases he
            simp [tryModelsLoop, hne]
      refine ⟨err, ?_, htype, ?_⟩
      · rw [hstep]
        exact hres
      · rw [hstep]
        simp [List.getLast?_append, hlast]

/-- C9 counterexample: a first model that begins yielding chunks ("a") and
then fails does not win; the loop falls through to the second model, whose
completed text "b" - never an accumulation of the first model's stream - is
the final result. -/
theorem counterexample_C9_chunk_winner :
    streamResultText (tryModelsLoop
        [⟨["a".toList], some ⟨"Error", none, "boom".toList⟩⟩, ⟨["b".toList], none⟩]
        none).2 = some (some "b".toList) ∧
    (⟨["a".toList], some ⟨"Error", none, "boom".toList⟩⟩ : ModelRun).chunks ≠ [] ∧
    ¬("b".toList ∈ prefixAccums ["a".toList]) := by decide

/-- C9 amended: the attempt order is the primary model followed by the
fallback list; a model that completes wins with its accumulated text; a
thrown AbortError ends the whole chain immediately (no further models, no
onError); any other failure - even after the model began yielding chunks -
abandons that model's partial output and moves to the next; and when every
model fails, one categorised error (carrying a defined error type) is passed
to onError and raised. -/
theorem claim_C9_fallback_chain :
    (∀ (behavior : String → ModelRun) (cfg : Option String)
        (fb : Option (List String)),
        generateStreamingResponse behavior cfg fb =
          tryModelsLoop (((cfg.getD API_CONFIG_MODEL) :: fb.getD []).map behavior)
            none) ∧
    (∀ (r : ModelRun) (rest : List ModelRun) (le : Option ErrObj),
        r.outcome = none →
        tryModelsLoop (r :: rest) le =
          ((prefixAccums r.chunks).map CbEvent.chunkCb ++
              [CbEvent.completeCb (accumText r.chunks)],
            Except.ok (some (accumText r.chunks)))) ∧
    (∀ (r : ModelRun) (rest : List ModelRun) (le : Option ErrObj) (err : ErrObj),
        r.outcome = some err → err.name = "AbortError" →
        tryModelsLoop (r :: rest) le =
          ((prefixAccums r.chunks).map CbEvent.chunkCb, Except.ok none)) ∧
    (∀ (r : ModelRun) (rest : List ModelRun) (le : Option ErrObj) (err : ErrObj),
        r.outcome = some err → err.name ≠ "AbortError" →
        tryModelsLoop (r :: rest) le =
          ((prefixAccums r.chunks).map CbEvent.chunkCb ++
              (tryModelsLoop rest (some err)).1,
            (tryModelsLoop rest (some err)).2)) ∧
    (∀ (runs : List ModelRun) (le : Option ErrObj),
        (∀ r ∈ runs, ∃ e, r.outcome = some e ∧ e.name ≠ "AbortError") →
        ∃ err, (tryModelsLoop runs le).2 = Except.error err ∧
          err.type.isSome = true ∧
          (tryModelsLoop runs le).1.getLast? = some (CbEvent.errorCb err)) := by
  refine ⟨fun _ _ _ => rfl, ?_, ?_, ?_, tryModelsLoop_all_fail⟩
  · intro r rest le h
    cases r with
    | mk chunks outcome =>
        cases h
        rfl
  · intro r rest le err h hname
    cases r with
    | mk chunks outcome =>
        cases h
        simp [tryModelsLoop, hname]
  · intro r rest le err h hname
    cases r with
    | mk chunks outcome =>
        cases h
        simp [tryModelsLoop, hname]

/-- Witness for C9: a completing model wins with its accumulated text, and an
aborting model ends the chain. -/
theorem witness_C9 :
    tryModelsLoop [⟨["b".toList], none⟩] none =
      ((prefixAccums ["b".toList]).map CbEvent.chunkCb ++
          [CbEvent.completeCb (accumText ["b".toList])],
        Except.ok (some (accumText ["b".toList]))) ∧
    tryModelsLoop [⟨[], some ⟨"AbortError", none, "aborted".toList⟩⟩,
        ⟨["x".toList], none⟩] none =
      ((prefixAccums ([] : List Str)).map CbEvent.chunkCb, Except.ok none) :=
  ⟨claim_C9_fallback_chain.2.1 ⟨["b".toList], none⟩ [] none rfl,
    claim_C9_fallback_chain.2.2.1 ⟨[], some ⟨"AbortError", none, "aborted".toList⟩⟩
      [⟨["x".toList], none⟩] none ⟨"AbortError", none, "aborted".toList⟩ rfl rfl⟩

end Jarvis
